/-
Verification of the siteaudit-backend audit scoring engine.

Shallow embedding of the four dimension analyzers (SEO, Performance,
Accessibility, Best Practices), the shared grading function, and the
audit aggregator.  The parsed-document abstraction follows the code's
boundary with its external collaborators: each analyzer input records
exactly the DOM-query results the analyzer reads (counts, attribute
values, header values), and the analyzer bodies mirror the JavaScript
deduction logic statement by statement.

JavaScript-specific conventions modelled explicitly:
  * `!x` on a string attribute is true when the attribute is absent or
    the empty string (`optFalsy`);
  * `String.prototype.includes` is substring containment (`jsIncludes`);
  * `Math.round x` is `⌊x + 1/2⌋` (`jsRound`);
  * `Math.max(score, 0)` is `max score 0` on `Int`.
-/
import Mathlib

/-- JS falsiness of an optional string attribute: `!x` is true for an
absent attribute (`undefined`) and for the empty string. -/
def optFalsy : Option String → Bool
  | none => true
  | some s => s.isEmpty

/-- Substring containment on character lists, helper for `jsIncludes`. -/
def containsSub (pat : List Char) : List Char → Bool
  | [] => pat.isEmpty
  | c :: rest => pat.isPrefixOf (c :: rest) || containsSub pat rest

/-- JS `String.prototype.includes`: substring containment. -/
def jsIncludes (s pat : String) : Bool :=
  containsSub pat.data s.data

/-- JS `String.prototype.trim`: strip whitespace from both ends. -/
def jsTrim (s : String) : String :=
  ⟨((s.data.dropWhile Char.isWhitespace).reverse.dropWhile Char.isWhitespace).reverse⟩

/-- JS `String.prototype.startsWith`. -/
def jsStartsWith (s pre : String) : Bool :=
  pre.data.isPrefixOf s.data

/-- JS `String.prototype.toLowerCase`. -/
def jsToLower (s : String) : String :=
  ⟨s.data.map Char.toLower⟩

/-- JS `Math.round`: round half toward positive infinity. -/
def jsRound (x : ℚ) : Int :=
  ⌊x + 1 / 2⌋

/-- `getGrade` from the source (identical in every service file):
fixed inclusive lower-bound thresholds. -/
def getGrade (score : Int) : String :=
  if score ≥ 90 then "A"
  else if score ≥ 80 then "B"
  else if score ≥ 70 then "C"
  else if score ≥ 60 then "D"
  else "F"

/-- A detected deficiency: `{ type, message, impact }`. -/
structure Issue where
  type : String
  message : String
  impact : String
deriving DecidableEq, Repr

/-! ## SEO analyzer (src/services/seoService.js, `analyzeSEO`) -/

/-- The DOM-query results `analyzeSEO` reads from the parsed document.
`title` is the raw `$('title').text()` (trimming happens in the
analyzer); the `Option String` fields are `attr(...)` results, `none`
for an absent attribute. -/
structure SEOInput where
  title : String
  metaDescription : Option String
  h1Count : Nat
  imagesWithoutAlt : Nat
  canonical : Option String
  ogTitle : Option String
  ogDescription : Option String
deriving DecidableEq, Repr

/-- The trimmed title text: `$('title').text().trim()`. -/
def seoTitleText (d : SEOInput) : String :=
  jsTrim d.title

/-- The issue pushed for a missing title tag. -/
def seoTitleMissingIssue : Issue :=
  ⟨"error", "Missing title tag", "high"⟩

/-- Issues from the title check: missing title, else bad length. -/
def seoTitleIssues (d : SEOInput) : List Issue :=
  let t := seoTitleText d
  let tl := t.length
  if t.isEmpty then [seoTitleMissingIssue]
  else if tl < 30 || tl > 60 then
    [⟨"warning", s!"Title length should be 30-60 characters (current: {tl})", "medium"⟩]
  else []

/-- Deduction from the title check: `-15` missing, `-10` bad length. -/
def seoTitleDeduction (d : SEOInput) : Int :=
  let t := seoTitleText d
  if t.isEmpty then 15
  else if t.length < 30 || t.length > 60 then 10
  else 0

/-- Issues from the meta-description check. -/
def seoMetaIssues (d : SEOInput) : List Issue :=
  if optFalsy d.metaDescription then
    [⟨"error", "Missing meta description", "high"⟩]
  else
    let ml := (d.metaDescription.getD "").length
    if ml < 120 || ml > 160 then
      [⟨"warning", s!"Meta description should be 120-160 characters (current: {ml})", "medium"⟩]
    else []

/-- Deduction from the meta-description check: `-15` missing, `-8` bad length. -/
def seoMetaDeduction (d : SEOInput) : Int :=
  if optFalsy d.metaDescription then 15
  else
    let ml := (d.metaDescription.getD "").length
    if ml < 120 || ml > 160 then 8 else 0

/-- Issues from the H1 check: none, else more than one. -/
def seoH1Issues (d : SEOInput) : List Issue :=
  if d.h1Count = 0 then [⟨"error", "Missing H1 tag", "high"⟩]
  else if d.h1Count > 1 then [⟨"warning", "Multiple H1 tags found", "medium"⟩]
  else []

/-- Deduction from the H1 check: `-12` missing, `-8` multiple. -/
def seoH1Deduction (d : SEOInput) : Int :=
  if d.h1Count = 0 then 12
  else if d.h1Count > 1 then 8
  else 0

/-- Issues from the images-without-alt check. -/
def seoAltIssues (d : SEOInput) : List Issue :=
  let n := d.imagesWithoutAlt
  if n > 0 then [⟨"warning", s!"{n} images missing alt text", "medium"⟩] else []

/-- Deduction from the images-without-alt check: `min(n*2, 15)`. -/
def seoAltDeduction (d : SEOInput) : Int :=
  if d.imagesWithoutAlt > 0 then ((min (d.imagesWithoutAlt * 2) 15 : Nat) : Int) else 0

/-- Issues from the canonical-link check. -/
def seoCanonicalIssues (d : SEOInput) : List Issue :=
  if optFalsy d.canonical then [⟨"warning", "Missing canonical URL", "low"⟩] else []

/-- Deduction from the canonical-link check: `-5` when missing. -/
def seoCanonicalDeduction (d : SEOInput) : Int :=
  if optFalsy d.canonical then 5 else 0

/-- Issues from the Open Graph check (`!ogTitle || !ogDescription`). -/
def seoOgIssues (d : SEOInput) : List Issue :=
  if optFalsy d.ogTitle || optFalsy d.ogDescription then
    [⟨"info", "Missing Open Graph tags for social sharing", "low"⟩]
  else []

/-- Deduction from the Open Graph check: `-3` when either tag is absent. -/
def seoOgDeduction (d : SEOInput) : Int :=
  if optFalsy d.ogTitle || optFalsy d.ogDescription then 3 else 0

/-- The running score after all SEO deductions (before `Math.max(·, 0)`). -/
def seoScoreInt (d : SEOInput) : Int :=
  100 - seoTitleDeduction d - seoMetaDeduction d - seoH1Deduction d
    - seoAltDeduction d - seoCanonicalDeduction d - seoOgDeduction d

/-- The SEO issue list, in source detection order. -/
def seoIssues (d : SEOInput) : List Issue :=
  seoTitleIssues d ++ seoMetaIssues d ++ seoH1Issues d ++ seoAltIssues d
    ++ seoCanonicalIssues d ++ seoOgIssues d

/-- SEO `details` record. -/
structure SEODetails where
  title : String
  titleLength : Nat
  metaDescription : String
  metaDescriptionLength : Nat
  h1Count : Nat
  imagesWithoutAlt : Nat
  hasCanonical : Bool
  hasOpenGraph : Bool
deriving DecidableEq, Repr

/-- SEO dimension result. -/
structure SEOResult where
  score : Int
  grade : String
  issues : List Issue
  recommendations : List String
  details : SEODetails
deriving DecidableEq, Repr

/-- `analyzeSEO`, assembled from the checks above in source order.
The reported score is clamped at 0; the grade is computed from the
unclamped running total, exactly as in the source. -/
def analyzeSEO (d : SEOInput) : SEOResult :=
  let t := seoTitleText d
  let issues := seoIssues d
  { score := max (seoScoreInt d) 0
    grade := getGrade (seoScoreInt d)
    issues := issues
    recommendations :=
      if issues.length > 0 then
        ["Fix critical SEO issues first (missing title, meta description, H1)",
         "Optimize title and meta description lengths",
         "Add alt text to all images"]
      else []
    details :=
      { title := if t.isEmpty then "Not found" else t
        titleLength := if t.isEmpty then 0 else t.length
        metaDescription :=
          if optFalsy d.metaDescription then "Not found" else d.metaDescription.getD ""
        metaDescriptionLength :=
          if optFalsy d.metaDescription then 0 else (d.metaDescription.getD "").length
        h1Count := d.h1Count
        imagesWithoutAlt := d.imagesWithoutAlt
        hasCanonical := !optFalsy d.canonical
        hasOpenGraph := !optFalsy d.ogTitle && !optFalsy d.ogDescription } }

/-! ## Performance analyzer (src/services/performanceService.js, `analyzePerformance`) -/

/-- The fetch metadata `analyzePerformance` reads: elapsed wall-clock
time of the fetch in milliseconds, the response body's byte length, and
the response headers it inspects. -/
structure PerfInput where
  loadTime : Nat
  contentSize : Nat
  contentEncoding : Option String
  cacheControl : Option String
  expires : Option String
  server : Option String
deriving DecidableEq, Repr

/-- `sizeInKB = Math.round(contentSize / 1024)`. -/
def perfSizeInKB (d : PerfInput) : Int :=
  jsRound ((d.contentSize : ℚ) / 1024)

/-- Issues from the load-time check (higher threshold wins). -/
def perfLoadIssues (d : PerfInput) : List Issue :=
  let lt := d.loadTime
  if lt > 3000 then [⟨"error", s!"Slow page load time: {lt}ms", "high"⟩]
  else if lt > 1500 then [⟨"warning", s!"Moderate page load time: {lt}ms", "medium"⟩]
  else []

/-- Deduction from the load-time check: `-20` slow, `-10` moderate. -/
def perfLoadDeduction (d : PerfInput) : Int :=
  if d.loadTime > 3000 then 20
  else if d.loadTime > 1500 then 10
  else 0

/-- Issues from the content-size check. -/
def perfSizeIssues (d : PerfInput) : List Issue :=
  let kb := perfSizeInKB d
  if kb > 1000 then [⟨"warning", s!"Large page size: {kb}KB", "medium"⟩] else []

/-- Deduction from the content-size check: `-15` when over 1000KB. -/
def perfSizeDeduction (d : PerfInput) : Int :=
  if perfSizeInKB d > 1000 then 15 else 0

/-- Issues from the compression-header check. -/
def perfCompressionIssues (d : PerfInput) : List Issue :=
  if optFalsy d.contentEncoding then
    [⟨"warning", "No compression detected", "medium"⟩]
  else []

/-- Deduction from the compression-header check: `-10` when absent. -/
def perfCompressionDeduction (d : PerfInput) : Int :=
  if optFalsy d.contentEncoding then 10 else 0

/-- Issues from the caching-headers check (both headers absent). -/
def perfCachingIssues (d : PerfInput) : List Issue :=
  if optFalsy d.cacheControl && optFalsy d.expires then
    [⟨"warning", "No caching headers found", "medium"⟩]
  else []

/-- Deduction from the caching-headers check: `-8` when both absent. -/
def perfCachingDeduction (d : PerfInput) : Int :=
  if optFalsy d.cacheControl && optFalsy d.expires then 8 else 0

/-- `hasCDN`: the lower-cased `server` header contains one of the fixed
CDN names. -/
def perfHasCDN (d : PerfInput) : Bool :=
  ["cloudflare", "cloudfront", "fastly", "maxcdn"].any fun cdn =>
    jsIncludes (jsToLower (d.server.getD "")) cdn

/-- Issues from the CDN check. -/
def perfCDNIssues (d : PerfInput) : List Issue :=
  if !perfHasCDN d then
    [⟨"info", "Consider using a CDN for better performance", "low"⟩]
  else []

/-- Deduction from the CDN check: `-5` when no CDN is detected. -/
def perfCDNDeduction (d : PerfInput) : Int :=
  if !perfHasCDN d then 5 else 0

/-- The running score after all performance deductions. -/
def perfScoreInt (d : PerfInput) : Int :=
  100 - perfLoadDeduction d - perfSizeDeduction d - perfCompressionDeduction d
    - perfCachingDeduction d - perfCDNDeduction d

/-- The performance issue list, in source detection order. -/
def perfIssues (d : PerfInput) : List Issue :=
  perfLoadIssues d ++ perfSizeIssues d ++ perfCompressionIssues d
    ++ perfCachingIssues d ++ perfCDNIssues d

/-- Performance `metrics` record. -/
structure PerfMetrics where
  loadTime : Nat
  pageSize : Int
  hasCompression : Bool
  hasCaching : Bool
  hasCDN : Bool
  responseTime : Nat
deriving DecidableEq, Repr

/-- Heuristic Core Web Vitals estimates. -/
structure CoreWebVitals where
  lcp : String
  fid : String
  cls : String
deriving DecidableEq, Repr

/-- Performance dimension result. -/
structure PerfResult where
  score : Int
  grade : String
  issues : List Issue
  recommendations : List String
  metrics : PerfMetrics
  coreWebVitals : CoreWebVitals
deriving DecidableEq, Repr

/-- `analyzePerformance`, assembled from the checks above in source order. -/
def analyzePerformance (d : PerfInput) : PerfResult :=
  { score := max (perfScoreInt d) 0
    grade := getGrade (perfScoreInt d)
    issues := perfIssues d
    recommendations :=
      (if d.loadTime > 1500 then
        ["Optimize images and reduce file sizes",
         "Enable compression (gzip/brotli)",
         "Minimize HTTP requests"]
      else []) ++
      (if perfSizeInKB d > 500 then ["Reduce page size by optimizing assets"] else [])
    metrics :=
      { loadTime := d.loadTime
        pageSize := perfSizeInKB d
        hasCompression := !optFalsy d.contentEncoding
        hasCaching := !optFalsy d.cacheControl || !optFalsy d.expires
        hasCDN := perfHasCDN d
        responseTime := d.loadTime }
    coreWebVitals :=
      { lcp :=
          if d.loadTime < 2500 then "good"
          else if d.loadTime < 4000 then "needs-improvement"
          else "poor"
        fid := "good"
        cls := "good" } }

/-! ## Accessibility analyzer (src/services/accessibilityService.js, `analyzeAccessibility`) -/

/-- The DOM-query results `analyzeAccessibility` reads.
`headingLevels` is the numeric level of each `h1..h6` element in
document order (abstracting `$('h1, h2, h3, h4, h5, h6')` together with
`parseInt(el.tagName.charAt(1))`); the h1 count is recovered from it.
The remaining fields abstract the counting selectors of the source. -/
structure AccessInput where
  imagesWithoutAlt : Nat
  totalImages : Nat
  headingLevels : List Nat
  inputsWithoutLabels : Nat
  elementsWithInlineColors : Nat
  focusableElements : Nat
  elementsWithTabindex : Nat
  landmarks : Nat
  htmlLang : Option String
  skipLinks : Nat
deriving DecidableEq, Repr

/-- Number of `h1` elements: level-1 entries of the heading walk. -/
def accH1Count (d : AccessInput) : Nat :=
  d.headingLevels.count 1

/-- The heading-hierarchy walk: starting from `previousLevel = 0`, each
heading whose level exceeds the previous level by more than 1 (once a
previous level has been seen) counts one break. -/
def countHeadingBreaks (prev : Nat) : List Nat → Nat
  | [] => 0
  | l :: ls => (if l > prev + 1 ∧ prev ≠ 0 then 1 else 0) + countHeadingBreaks l ls

/-- The internal `headingIssues` counter after the whole walk: one for
a missing h1, plus one per hierarchy break. -/
def headingIssueCount (d : AccessInput) : Nat :=
  (if accH1Count d = 0 then 1 else 0) + countHeadingBreaks 0 d.headingLevels

/-- Issues from the images-alt check. -/
def accAltIssues (d : AccessInput) : List Issue :=
  let n := d.imagesWithoutAlt
  let t := d.totalImages
  if n > 0 then [⟨"error", s!"{n} of {t} images missing alt text", "high"⟩] else []

/-- Deduction from the images-alt check: `min(n*3, 20)`. -/
def accAltDeduction (d : AccessInput) : Int :=
  if d.imagesWithoutAlt > 0 then ((min (d.imagesWithoutAlt * 3) 20 : Nat) : Int) else 0

/-- Issues from the missing-H1 check. -/
def accH1Issues (d : AccessInput) : List Issue :=
  if accH1Count d = 0 then [⟨"error", "Missing H1 heading", "high"⟩] else []

/-- Deduction from the missing-H1 check: `-15`. -/
def accH1Deduction (d : AccessInput) : Int :=
  if accH1Count d = 0 then 15 else 0

/-- The single combined heading-hierarchy warning. -/
def accHierarchyIssue : Issue :=
  ⟨"warning", "Improper heading hierarchy", "medium"⟩

/-- Issues from the heading-hierarchy check: fires only when the
internal counter exceeds 1. -/
def accHierarchyIssues (d : AccessInput) : List Issue :=
  if headingIssueCount d > 1 then [accHierarchyIssue] else []

/-- Deduction from the heading-hierarchy check: `-10` when the counter
exceeds 1. -/
def accHierarchyDeduction (d : AccessInput) : Int :=
  if headingIssueCount d > 1 then 10 else 0

/-- Issues from the form-labels check. -/
def accLabelIssues (d : AccessInput) : List Issue :=
  let n := d.inputsWithoutLabels
  if n > 0 then [⟨"error", s!"{n} form inputs missing labels", "high"⟩] else []

/-- Deduction from the form-labels check: `n*5`, uncapped. -/
def accLabelDeduction (d : AccessInput) : Int :=
  if d.inputsWithoutLabels > 0 then ((d.inputsWithoutLabels * 5 : Nat) : Int) else 0

/-- Issues from the inline-colors check. -/
def accColorIssues (d : AccessInput) : List Issue :=
  if d.elementsWithInlineColors > 0 then
    [⟨"warning", "Elements with inline colors detected - check contrast ratios", "medium"⟩]
  else []

/-- Deduction from the inline-colors check: `-5`. -/
def accColorDeduction (d : AccessInput) : Int :=
  if d.elementsWithInlineColors > 0 then 5 else 0

/-- Issues from the keyboard-navigation check: focusable elements exist
but none carries an explicit `tabindex`. -/
def accKeyboardIssues (d : AccessInput) : List Issue :=
  if d.focusableElements > 0 ∧ d.elementsWithTabindex = 0 then
    [⟨"info", "Consider adding proper tab navigation order", "low"⟩]
  else []

/-- Deduction from the keyboard-navigation check: `-3`. -/
def accKeyboardDeduction (d : AccessInput) : Int :=
  if d.focusableElements > 0 ∧ d.elementsWithTabindex = 0 then 3 else 0

/-- Issues from the landmarks check. -/
def accLandmarkIssues (d : AccessInput) : List Issue :=
  if d.landmarks = 0 then
    [⟨"warning", "No ARIA landmarks or semantic HTML5 elements found", "medium"⟩]
  else []

/-- Deduction from the landmarks check: `-8`. -/
def accLandmarkDeduction (d : AccessInput) : Int :=
  if d.landmarks = 0 then 8 else 0

/-- Issues from the language-attribute check. -/
def accLangIssues (d : AccessInput) : List Issue :=
  if optFalsy d.htmlLang then
    [⟨"warning", "Missing language attribute on HTML element", "medium"⟩]
  else []

/-- Deduction from the language-attribute check: `-7`. -/
def accLangDeduction (d : AccessInput) : Int :=
  if optFalsy d.htmlLang then 7 else 0

/-- Issues from the skip-links check. -/
def accSkipIssues (d : AccessInput) : List Issue :=
  if d.skipLinks = 0 then
    [⟨"info", "No skip navigation links found", "low"⟩]
  else []

/-- Deduction from the skip-links check: `-3`. -/
def accSkipDeduction (d : AccessInput) : Int :=
  if d.skipLinks = 0 then 3 else 0

/-- The running score after all accessibility deductions. -/
def accScoreInt (d : AccessInput) : Int :=
  100 - accAltDeduction d - accH1Deduction d - accHierarchyDeduction d
    - accLabelDeduction d - accColorDeduction d - accKeyboardDeduction d
    - accLandmarkDeduction d - accLangDeduction d - accSkipDeduction d

/-- The accessibility issue list, in source detection order. -/
def accIssues (d : AccessInput) : List Issue :=
  accAltIssues d ++ accH1Issues d ++ accHierarchyIssues d ++ accLabelIssues d
    ++ accColorIssues d ++ accKeyboardIssues d ++ accLandmarkIssues d
    ++ accLangIssues d ++ accSkipIssues d

/-- Accessibility `details` record. -/
structure AccessDetails where
  totalImages : Nat
  imagesWithoutAlt : Nat
  headingCount : Nat
  inputsWithoutLabels : Nat
  hasLanguageAttribute : Bool
  landmarkCount : Nat
  skipLinksCount : Nat
deriving DecidableEq, Repr

/-- Accessibility dimension result. -/
structure AccessResult where
  score : Int
  grade : String
  issues : List Issue
  recommendations : List String
  details : AccessDetails
deriving DecidableEq, Repr

/-- `analyzeAccessibility`, assembled from the checks above in source order. -/
def analyzeAccessibility (d : AccessInput) : AccessResult :=
  { score := max (accScoreInt d) 0
    grade := getGrade (accScoreInt d)
    issues := accIssues d
    recommendations :=
      (if d.imagesWithoutAlt > 0 then ["Add descriptive alt text to all images"] else []) ++
      (if d.inputsWithoutLabels > 0 then ["Associate all form inputs with proper labels"] else []) ++
      (if headingIssueCount d > 0 then ["Fix heading hierarchy (H1 → H2 → H3, etc.)"] else []) ++
      ["Test with screen readers and keyboard navigation",
       "Ensure sufficient color contrast (4.5:1 for normal text)"]
    details :=
      { totalImages := d.totalImages
        imagesWithoutAlt := d.imagesWithoutAlt
        headingCount := d.headingLevels.length
        inputsWithoutLabels := d.inputsWithoutLabels
        hasLanguageAttribute := !optFalsy d.htmlLang
        landmarkCount := d.landmarks
        skipLinksCount := d.skipLinks } }

/-! ## Best Practices analyzer (src/services/bestPracticesService.js, `analyzeBestPractices`) -/

/-- The inputs `analyzeBestPractices` reads: the target URL, the four
security response headers, the viewport meta content, the favicon-link
presence (`$('link[rel*="icon"]').length > 0 || $('link[rel="shortcut
icon"]').length > 0`), the `rel` attribute of each external link
(the elements selected by `a[href^="http"]:not([href*=hostname])`,
in document order), and the remaining counting selectors. -/
structure BPInput where
  url : String
  xContentTypeOptions : Option String
  xFrameOptions : Option String
  xXssProtection : Option String
  strictTransportSecurity : Option String
  viewportMeta : Option String
  hasFavicon : Bool
  externalLinkRels : List (Option String)
  httpResources : Nat
  deprecatedElements : Nat
  inlineStyles : Nat
  inlineScripts : Nat
deriving DecidableEq, Repr

/-- `isHTTPS = url.startsWith('https://')`. -/
def bpIsHTTPS (d : BPInput) : Bool :=
  jsStartsWith d.url "https://"

/-- Issues from the HTTPS check. -/
def bpHttpsIssues (d : BPInput) : List Issue :=
  if !bpIsHTTPS d then [⟨"error", "Website not using HTTPS", "high"⟩] else []

/-- Deduction from the HTTPS check: `-20`. -/
def bpHttpsDeduction (d : BPInput) : Int :=
  if !bpIsHTTPS d then 20 else 0

/-- Issues from the four security-header checks, in the fixed
insertion order of the `securityHeaders` object. -/
def bpHeaderIssues (d : BPInput) : List Issue :=
  (if optFalsy d.xContentTypeOptions then
    [⟨"warning", "Missing X-Content-Type-Options header", "medium"⟩] else []) ++
  (if optFalsy d.xFrameOptions then
    [⟨"warning", "Missing X-Frame-Options header", "medium"⟩] else []) ++
  (if optFalsy d.xXssProtection then
    [⟨"warning", "Missing X-XSS-Protection header", "medium"⟩] else []) ++
  (if optFalsy d.strictTransportSecurity then
    [⟨"warning", "Missing Strict-Transport-Security header", "medium"⟩] else [])

/-- Deduction from the security-header checks: `-5` per missing header. -/
def bpHeaderDeduction (d : BPInput) : Int :=
  (if optFalsy d.xContentTypeOptions then 5 else 0) +
  (if optFalsy d.xFrameOptions then 5 else 0) +
  (if optFalsy d.xXssProtection then 5 else 0) +
  (if optFalsy d.strictTransportSecurity then 5 else 0)

/-- Issues from the viewport check: missing, else lacking
`width=device-width`. -/
def bpViewportIssues (d : BPInput) : List Issue :=
  if optFalsy d.viewportMeta then
    [⟨"error", "Missing viewport meta tag", "high"⟩]
  else if !jsIncludes (d.viewportMeta.getD "") "width=device-width" then
    [⟨"warning", "Viewport meta tag should include width=device-width", "medium"⟩]
  else []

/-- Deduction from the viewport check: `-15` missing, `-8` incomplete. -/
def bpViewportDeduction (d : BPInput) : Int :=
  if optFalsy d.viewportMeta then 15
  else if !jsIncludes (d.viewportMeta.getD "") "width=device-width" then 8
  else 0

/-- Issues from the favicon check. -/
def bpFaviconIssues (d : BPInput) : List Issue :=
  if !d.hasFavicon then [⟨"info", "No favicon found", "low"⟩] else []

/-- Deduction from the favicon check: `-3`. -/
def bpFaviconDeduction (d : BPInput) : Int :=
  if !d.hasFavicon then 3 else 0

/-- The unsafe-external-link filter:
`!rel.includes('noopener') || !rel.includes('noreferrer')` with the
`rel` attribute defaulted to the empty string. -/
def bpIsUnsafeRel (relAttr : Option String) : Bool :=
  let rel := relAttr.getD ""
  !jsIncludes rel "noopener" || !jsIncludes rel "noreferrer"

/-- The number of unsafe external links. -/
def bpUnsafeCount (d : BPInput) : Nat :=
  (d.externalLinkRels.filter bpIsUnsafeRel).length

/-- The warning pushed for `n` unsafe external links. -/
def bpUnsafeIssue (n : Nat) : Issue :=
  ⟨"warning", s!"{n} external links missing rel=\"noopener noreferrer\"", "medium"⟩

/-- Issues from the external-link-safety check. -/
def bpUnsafeIssues (d : BPInput) : List Issue :=
  if bpUnsafeCount d > 0 then [bpUnsafeIssue (bpUnsafeCount d)] else []

/-- Deduction from the external-link-safety check: `min(n*2, 10)`. -/
def bpUnsafeDeduction (d : BPInput) : Int :=
  if bpUnsafeCount d > 0 then ((min (bpUnsafeCount d * 2) 10 : Nat) : Int) else 0

/-- Issues from the mixed-content check (only on HTTPS pages). -/
def bpMixedIssues (d : BPInput) : List Issue :=
  if bpIsHTTPS d ∧ d.httpResources > 0 then
    [⟨"error", s!"{d.httpResources} HTTP resources on HTTPS page (mixed content)", "high"⟩]
  else []

/-- Deduction from the mixed-content check: `-15`. -/
def bpMixedDeduction (d : BPInput) : Int :=
  if bpIsHTTPS d ∧ d.httpResources > 0 then 15 else 0

/-- Issues from the deprecated-elements check. -/
def bpDeprecatedIssues (d : BPInput) : List Issue :=
  let n := d.deprecatedElements
  if n > 0 then [⟨"warning", s!"{n} deprecated HTML elements found", "low"⟩] else []

/-- Deduction from the deprecated-elements check: `n*2`, uncapped. -/
def bpDeprecatedDeduction (d : BPInput) : Int :=
  if d.deprecatedElements > 0 then ((d.deprecatedElements * 2 : Nat) : Int) else 0

/-- Issues from the inline-styles check. -/
def bpStyleIssues (d : BPInput) : List Issue :=
  let n := d.inlineStyles
  if n > 5 then
    [⟨"info", s!"Many inline styles found ({n}) - consider using external CSS", "low"⟩]
  else []

/-- Deduction from the inline-styles check: `-3`. -/
def bpStyleDeduction (d : BPInput) : Int :=
  if d.inlineStyles > 5 then 3 else 0

/-- Issues from the inline-scripts check. -/
def bpScriptIssues (d : BPInput) : List Issue :=
  let n := d.inlineScripts
  if n > 2 then
    [⟨"info", s!"Multiple inline scripts found ({n}) - consider using external JS", "low"⟩]
  else []

/-- Deduction from the inline-scripts check: `-3`. -/
def bpScriptDeduction (d : BPInput) : Int :=
  if d.inlineScripts > 2 then 3 else 0

/-- The running score after all best-practices deductions. -/
def bpScoreInt (d : BPInput) : Int :=
  100 - bpHttpsDeduction d - bpHeaderDeduction d - bpViewportDeduction d
    - bpFaviconDeduction d - bpUnsafeDeduction d - bpMixedDeduction d
    - bpDeprecatedDeduction d - bpStyleDeduction d - bpScriptDeduction d

/-- The best-practices issue list, in source detection order. -/
def bpIssues (d : BPInput) : List Issue :=
  bpHttpsIssues d ++ bpHeaderIssues d ++ bpViewportIssues d ++ bpFaviconIssues d
    ++ bpUnsafeIssues d ++ bpMixedIssues d ++ bpDeprecatedIssues d
    ++ bpStyleIssues d ++ bpScriptIssues d

/-- Best-practices `details.securityHeaders` record. -/
structure SecurityHeaderDetails where
  contentTypeOptions : Bool
  frameOptions : Bool
  xssProtection : Bool
  hsts : Bool
deriving DecidableEq, Repr

/-- Best-practices `details` record. -/
structure BPDetails where
  isHTTPS : Bool
  hasViewport : Bool
  hasFavicon : Bool
  securityHeaders : SecurityHeaderDetails
  externalLinksCount : Nat
  unsafeExternalLinks : Nat
  deprecatedElements : Nat
  inlineStyles : Nat
  inlineScripts : Nat
deriving DecidableEq, Repr

/-- Best-practices dimension result. -/
structure BPResult where
  score : Int
  grade : String
  issues : List Issue
  recommendations : List String
  details : BPDetails
deriving DecidableEq, Repr

/-- `analyzeBestPractices`, assembled from the checks above in source order. -/
def analyzeBestPractices (d : BPInput) : BPResult :=
  { score := max (bpScoreInt d) 0
    grade := getGrade (bpScoreInt d)
    issues := bpIssues d
    recommendations :=
      (if !bpIsHTTPS d then ["Implement HTTPS with valid SSL certificate"] else []) ++
      (if optFalsy d.xContentTypeOptions || optFalsy d.xFrameOptions
          || optFalsy d.xXssProtection || optFalsy d.strictTransportSecurity then
        ["Add security headers for better protection"] else []) ++
      (if optFalsy d.viewportMeta then
        ["Add viewport meta tag for mobile responsiveness"] else []) ++
      (if bpUnsafeCount d > 0 then
        ["Add rel=\"noopener noreferrer\" to external links"] else [])
    details :=
      { isHTTPS := bpIsHTTPS d
        hasViewport := !optFalsy d.viewportMeta
        hasFavicon := d.hasFavicon
        securityHeaders :=
          { contentTypeOptions := !optFalsy d.xContentTypeOptions
            frameOptions := !optFalsy d.xFrameOptions
            xssProtection := !optFalsy d.xXssProtection
            hsts := !optFalsy d.strictTransportSecurity }
        externalLinksCount := d.externalLinkRels.length
        unsafeExternalLinks := bpUnsafeCount d
        deprecatedElements := d.deprecatedElements
        inlineStyles := d.inlineStyles
        inlineScripts := d.inlineScripts } }

/-! ## Audit aggregator (src/services/auditService.js, `runFullAudit`)

A dimension outcome is either the analyzer's result or the message of
the error it threw; `Except.error msg` stands for the substitute record
`{ error: msg, score: 0 }` produced by the `.catch` handler, which has
no `issues`, `recommendations`, or `details` fields. -/

/-- `result.score || 0`: the error placeholder's score is 0 (and a
successful result's `score: 0` is likewise falsy, yielding 0). -/
def dimScore {α : Type} (score : α → Int) : Except String α → Int
  | .ok r => score r
  | .error _ => 0

/-- `result.issues?.length || 0`: the error placeholder has no
`issues` field, contributing 0. -/
def dimIssuesLen {α : Type} (issues : α → List Issue) : Except String α → Nat
  | .ok r => (issues r).length
  | .error _ => 0

/-- The `overall` record (the wall-clock `timestamp` field is omitted
as external to the scoring logic). -/
structure Overall where
  score : Int
  grade : String
deriving DecidableEq, Repr

/-- The `summary` record. -/
structure Summary where
  totalIssues : Nat
  criticalIssues : Nat
  recommendations : List String
deriving DecidableEq, Repr

/-- The complete audit report. -/
structure AuditReport where
  overall : Overall
  seo : Except String SEOResult
  performance : Except String PerfResult
  accessibility : Except String AccessResult
  bestPractices : Except String BPResult
  summary : Summary
deriving Repr

/-- `runFullAudit`, given the four settled dimension outcomes:
`overallScore = Math.round(scores.reduce((a,b) => a+b, 0) / 4)`. -/
def runFullAudit (seoR : Except String SEOResult) (perfR : Except String PerfResult)
    (accR : Except String AccessResult) (bpR : Except String BPResult) : AuditReport :=
  let s1 := dimScore SEOResult.score seoR
  let s2 := dimScore PerfResult.score perfR
  let s3 := dimScore AccessResult.score accR
  let s4 := dimScore BPResult.score bpR
  let overallScore := jsRound (((s1 + s2 + s3 + s4 : Int) : ℚ) / 4)
  { overall := { score := overallScore, grade := getGrade overallScore }
    seo := seoR
    performance := perfR
    accessibility := accR
    bestPractices := bpR
    summary :=
      { totalIssues :=
          dimIssuesLen SEOResult.issues seoR + dimIssuesLen PerfResult.issues perfR
            + dimIssuesLen AccessResult.issues accR + dimIssuesLen BPResult.issues bpR
        criticalIssues := 0
        recommendations := [] } }

/-- The full pipeline: each dimension's fetch+analysis either yields
the analyzer input (then the analyzer runs on it) or throws with a
message (then the `.catch` handler substitutes the placeholder). -/
def runFullAuditOn (seoD : Except String SEOInput) (perfD : Except String PerfInput)
    (accD : Except String AccessInput) (bpD : Except String BPInput) : AuditReport :=
  runFullAudit (seoD.map analyzeSEO) (perfD.map analyzePerformance)
    (accD.map analyzeAccessibility) (bpD.map analyzeBestPractices)


/-! ## Concrete example documents -/

/-- A document satisfying every condition of the clean-accessibility
scenario (lang, one h1, all images with alt, all inputs labeled, a
landmark, a skip link) whose only focusable element is the skip link
and which carries no explicit `tabindex`. -/
def accNoTabDoc : AccessInput :=
  ⟨0, 2, [1], 0, 0, 1, 0, 1, some "en", 1⟩

/-- The same clean scenario with an explicit `tabindex` present. -/
def accCleanDoc : AccessInput :=
  ⟨0, 2, [1, 2], 0, 0, 3, 1, 1, some "en", 1⟩

/-- A document whose heading walk (h1, h3, h5) produces two hierarchy
breaks. -/
def accBrokenDoc : AccessInput :=
  ⟨0, 0, [1, 3, 5], 0, 0, 0, 0, 1, some "en", 1⟩

/-- A document with an h1 and exactly one hierarchy break (h1, h3). -/
def accSingleBreakDoc : AccessInput :=
  ⟨0, 0, [1, 3], 0, 0, 0, 0, 1, some "en", 1⟩

/-- A document with no title, no meta description, no h1, and three
images without alt — and nothing else present either. -/
def seoBareDoc : SEOInput :=
  ⟨"", none, 0, 3, none, none, none⟩

/-- The same missing-essentials document, but with a canonical link and
both Open Graph tags present. -/
def seoBareWithCanonicalDoc : SEOInput :=
  ⟨"", none, 0, 3, some "https://example.com/", some "t", some "d"⟩

/-- A document whose title element contains only whitespace. -/
def seoWhitespaceDoc : SEOInput :=
  ⟨"   ", none, 1, 0, some "https://example.com/", some "t", some "d"⟩

/-- A best-practices input with three external links: one with only
`noopener`, one with no `rel` at all, one with both tokens. -/
def bpUnsafeDoc : BPInput :=
  ⟨"https://example.com/", some "nosniff", some "DENY", some "1; mode=block",
    some "max-age=63072000", some "width=device-width, initial-scale=1", true,
    [some "noopener", none, some "noopener noreferrer"], 0, 0, 0, 0⟩

/-! ## Supporting lemmas -/

/-- Any score below 60 grades F. -/
lemma getGrade_lt60 {s : Int} (h : s < 60) : getGrade s = "F" := by
  unfold getGrade
  rw [if_neg (by omega), if_neg (by omega), if_neg (by omega), if_neg (by omega)]

/-- Clamping a running total at 0 never changes its grade: a negative
total and 0 both grade F. -/
lemma getGrade_max (s : Int) : getGrade (max s 0) = getGrade s := by
  rcases le_total 0 s with h | h
  · rw [max_eq_left h]
  · rw [max_eq_right h, getGrade_lt60 (by omega), getGrade_lt60 (by omega)]

lemma analyzeSEO_score (d : SEOInput) : (analyzeSEO d).score = max (seoScoreInt d) 0 := rfl

lemma analyzeSEO_grade (d : SEOInput) : (analyzeSEO d).grade = getGrade (seoScoreInt d) := rfl

lemma analyzeSEO_issues (d : SEOInput) : (analyzeSEO d).issues = seoIssues d := rfl

lemma analyzePerformance_score (d : PerfInput) :
    (analyzePerformance d).score = max (perfScoreInt d) 0 := by
  unfold analyzePerformance
  rfl

lemma analyzePerformance_grade (d : PerfInput) :
    (analyzePerformance d).grade = getGrade (perfScoreInt d) := by
  unfold analyzePerformance
  rfl

lemma analyzeAccessibility_score (d : AccessInput) :
    (analyzeAccessibility d).score = max (accScoreInt d) 0 := rfl

lemma analyzeAccessibility_grade (d : AccessInput) :
    (analyzeAccessibility d).grade = getGrade (accScoreInt d) := rfl

lemma analyzeAccessibility_issues (d : AccessInput) :
    (analyzeAccessibility d).issues = accIssues d := rfl

lemma analyzeBestPractices_score (d : BPInput) :
    (analyzeBestPractices d).score = max (bpScoreInt d) 0 := rfl

lemma analyzeBestPractices_grade (d : BPInput) :
    (analyzeBestPractices d).grade = getGrade (bpScoreInt d) := rfl

lemma analyzeBestPractices_issues (d : BPInput) :
    (analyzeBestPractices d).issues = bpIssues d := rfl

lemma seoTitleDeduction_bounds (d : SEOInput) :
    0 ≤ seoTitleDeduction d ∧ seoTitleDeduction d ≤ 15 := by
  simp only [seoTitleDeduction]
  split_ifs <;> omega

lemma seoMetaDeduction_bounds (d : SEOInput) :
    0 ≤ seoMetaDeduction d ∧ seoMetaDeduction d ≤ 15 := by
  simp only [seoMetaDeduction]
  split_ifs <;> omega

lemma seoH1Deduction_bounds (d : SEOInput) :
    0 ≤ seoH1Deduction d ∧ seoH1Deduction d ≤ 12 := by
  simp only [seoH1Deduction]
  split_ifs <;> omega

lemma seoAltDeduction_bounds (d : SEOInput) :
    0 ≤ seoAltDeduction d ∧ seoAltDeduction d ≤ 15 := by
  simp only [seoAltDeduction]
  split_ifs <;> omega

lemma seoCanonicalDeduction_bounds (d : SEOInput) :
    0 ≤ seoCanonicalDeduction d ∧ seoCanonicalDeduction d ≤ 5 := by
  simp only [seoCanonicalDeduction]
  split_ifs <;> omega

lemma seoOgDeduction_bounds (d : SEOInput) :
    0 ≤ seoOgDeduction d ∧ seoOgDeduction d ≤ 3 := by
  simp only [seoOgDeduction]
  split_ifs <;> omega

/-- The SEO running total stays within [35, 100]: the six deduction
sites cap at 15 + 15 + 12 + 15 + 5 + 3 = 65 points in total. -/
lemma seoScoreInt_bounds (d : SEOInput) : 35 ≤ seoScoreInt d ∧ seoScoreInt d ≤ 100 := by
  have h1 := seoTitleDeduction_bounds d
  have h2 := seoMetaDeduction_bounds d
  have h3 := seoH1Deduction_bounds d
  have h4 := seoAltDeduction_bounds d
  have h5 := seoCanonicalDeduction_bounds d
  have h6 := seoOgDeduction_bounds d
  unfold seoScoreInt
  omega

/-- The performance running total never exceeds 100. -/
lemma perfScoreInt_le (d : PerfInput) : perfScoreInt d ≤ 100 := by
  simp only [perfScoreInt, perfLoadDeduction, perfSizeDeduction, perfCompressionDeduction,
    perfCachingDeduction, perfCDNDeduction]
  split_ifs <;> omega

lemma accAltDeduction_nonneg (d : AccessInput) : 0 ≤ accAltDeduction d := by
  simp only [accAltDeduction]
  split_ifs <;> omega

lemma accH1Deduction_nonneg (d : AccessInput) : 0 ≤ accH1Deduction d := by
  simp only [accH1Deduction]
  split_ifs <;> omega

lemma accHierarchyDeduction_nonneg (d : AccessInput) : 0 ≤ accHierarchyDeduction d := by
  simp only [accHierarchyDeduction]
  split_ifs <;> omega

lemma accLabelDeduction_nonneg (d : AccessInput) : 0 ≤ accLabelDeduction d := by
  simp only [accLabelDeduction]
  split_ifs <;> omega

lemma accColorDeduction_nonneg (d : AccessInput) : 0 ≤ accColorDeduction d := by
  simp only [accColorDeduction]
  split_ifs <;> omega

lemma accKeyboardDeduction_nonneg (d : AccessInput) : 0 ≤ accKeyboardDeduction d := by
  simp only [accKeyboardDeduction]
  split_ifs <;> omega

lemma accLandmarkDeduction_nonneg (d : AccessInput) : 0 ≤ accLandmarkDeduction d := by
  simp only [accLandmarkDeduction]
  split_ifs <;> omega

lemma accLangDeduction_nonneg (d : AccessInput) : 0 ≤ accLangDeduction d := by
  simp only [accLangDeduction]
  split_ifs <;> omega

lemma accSkipDeduction_nonneg (d : AccessInput) : 0 ≤ accSkipDeduction d := by
  simp only [accSkipDeduction]
  split_ifs <;> omega

/-- The accessibility running total never exceeds 100: every deduction
is nonnegative. -/
lemma accScoreInt_le (d : AccessInput) : accScoreInt d ≤ 100 := by
  have h1 := accAltDeduction_nonneg d
  have h2 := accH1Deduction_nonneg d
  have h3 := accHierarchyDeduction_nonneg d
  have h4 := accLabelDeduction_nonneg d
  have h5 := accColorDeduction_nonneg d
  have h6 := accKeyboardDeduction_nonneg d
  have h7 := accLandmarkDeduction_nonneg d
  have h8 := accLangDeduction_nonneg d
  have h9 := accSkipDeduction_nonneg d
  unfold accScoreInt
  omega

lemma bpHttpsDeduction_nonneg (d : BPInput) : 0 ≤ bpHttpsDeduction d := by
  simp only [bpHttpsDeduction]
  split_ifs <;> omega

lemma bpHeaderDeduction_nonneg (d : BPInput) : 0 ≤ bpHeaderDeduction d := by
  simp only [bpHeaderDeduction]
  split_ifs <;> omega

lemma bpViewportDeduction_nonneg (d : BPInput) : 0 ≤ bpViewportDeduction d := by
  simp only [bpViewportDeduction]
  split_ifs <;> omega

lemma bpFaviconDeduction_nonneg (d : BPInput) : 0 ≤ bpFaviconDeduction d := by
  simp only [bpFaviconDeduction]
  split_ifs <;> omega

lemma bpUnsafeDeduction_nonneg (d : BPInput) : 0 ≤ bpUnsafeDeduction d := by
  simp only [bpUnsafeDeduction]
  split_ifs <;> omega

lemma bpMixedDeduction_nonneg (d : BPInput) : 0 ≤ bpMixedDeduction d := by
  simp only [bpMixedDeduction]
  split_ifs <;> omega

lemma bpDeprecatedDeduction_nonneg (d : BPInput) : 0 ≤ bpDeprecatedDeduction d := by
  simp only [bpDeprecatedDeduction]
  split_ifs <;> omega

lemma bpStyleDeduction_nonneg (d : BPInput) : 0 ≤ bpStyleDeduction d := by
  simp only [bpStyleDeduction]
  split_ifs <;> omega

lemma bpScriptDeduction_nonneg (d : BPInput) : 0 ≤ bpScriptDeduction d := by
  simp only [bpScriptDeduction]
  split_ifs <;> omega

/-- The best-practices running total never exceeds 100: every
deduction is nonnegative. -/
lemma bpScoreInt_le (d : BPInput) : bpScoreInt d ≤ 100 := by
  have h1 := bpHttpsDeduction_nonneg d
  have h2 := bpHeaderDeduction_nonneg d
  have h3 := bpViewportDeduction_nonneg d
  have h4 := bpFaviconDeduction_nonneg d
  have h5 := bpUnsafeDeduction_nonneg d
  have h6 := bpMixedDeduction_nonneg d
  have h7 := bpDeprecatedDeduction_nonneg d
  have h8 := bpStyleDeduction_nonneg d
  have h9 := bpScriptDeduction_nonneg d
  unfold bpScoreInt
  omega

/-- JS `Math.round` agrees with the mathematical round-half-up. -/
lemma jsRound_eq_round (x : ℚ) : jsRound x = round x := by
  rw [jsRound, round_eq]

lemma jsRound_div4_nonneg {t : Int} (h : 0 ≤ t) : 0 ≤ jsRound ((t : ℚ) / 4) := by
  rw [jsRound]
  apply Int.le_floor.mpr
  have ht : (0 : ℚ) ≤ (t : ℚ) := by exact_mod_cast h
  push_cast
  linarith

lemma jsRound_div4_le {t : Int} (h : t ≤ 400) : jsRound ((t : ℚ) / 4) ≤ 100 := by
  rw [jsRound]
  have h2 : ⌊(t : ℚ) / 4 + 1 / 2⌋ < 101 := by
    apply Int.floor_lt.mpr
    have ht : (t : ℚ) ≤ 400 := by exact_mod_cast h
    push_cast
    linarith
  omega

lemma jsRound_zero_div4 : jsRound (((0 : Int) : ℚ) / 4) = 0 := by
  rw [jsRound]
  norm_num [Int.floor_eq_zero_iff, Set.mem_Ico]

lemma runFullAudit_overall_score (s : Except String SEOResult) (p : Except String PerfResult)
    (a : Except String AccessResult) (b : Except String BPResult) :
    (runFullAudit s p a b).overall.score =
      jsRound (((dimScore SEOResult.score s + dimScore PerfResult.score p
        + dimScore AccessResult.score a + dimScore BPResult.score b : Int) : ℚ) / 4) := rfl

lemma runFullAudit_overall_grade (s : Except String SEOResult) (p : Except String PerfResult)
    (a : Except String AccessResult) (b : Except String BPResult) :
    (runFullAudit s p a b).overall.grade = getGrade ((runFullAudit s p a b).overall.score) := rfl

lemma runFullAudit_totalIssues (s : Except String SEOResult) (p : Except String PerfResult)
    (a : Except String AccessResult) (b : Except String BPResult) :
    (runFullAudit s p a b).summary.totalIssues =
      dimIssuesLen SEOResult.issues s + dimIssuesLen PerfResult.issues p
        + dimIssuesLen AccessResult.issues a + dimIssuesLen BPResult.issues b := rfl

/-- Every settled SEO dimension outcome carries a score in [0, 100]. -/
lemma dimScore_seo_bounds (s : Except String SEOInput) :
    0 ≤ dimScore SEOResult.score (s.map analyzeSEO) ∧
      dimScore SEOResult.score (s.map analyzeSEO) ≤ 100 := by
  cases s with
  | error m => simp [dimScore, Except.map]
  | ok d =>
    have hb := seoScoreInt_bounds d
    simp only [Except.map, dimScore, analyzeSEO_score]
    omega

/-- Every settled performance dimension outcome carries a score in [0, 100]. -/
lemma dimScore_perf_bounds (p : Except String PerfInput) :
    0 ≤ dimScore PerfResult.score (p.map analyzePerformance) ∧
      dimScore PerfResult.score (p.map analyzePerformance) ≤ 100 := by
  cases p with
  | error m => simp [dimScore, Except.map]
  | ok d =>
    have hb := perfScoreInt_le d
    simp only [Except.map, dimScore, analyzePerformance_score]
    omega

/-- Every settled accessibility dimension outcome carries a score in [0, 100]. -/
lemma dimScore_acc_bounds (a : Except String AccessInput) :
    0 ≤ dimScore AccessResult.score (a.map analyzeAccessibility) ∧
      dimScore AccessResult.score (a.map analyzeAccessibility) ≤ 100 := by
  cases a with
  | error m => simp [dimScore, Except.map]
  | ok d =>
    have hb := accScoreInt_le d
    simp only [Except.map, dimScore, analyzeAccessibility_score]
    omega

/-- Every settled best-practices dimension outcome carries a score in [0, 100]. -/
lemma dimScore_bp_bounds (b : Except String BPInput) :
    0 ≤ dimScore BPResult.score (b.map analyzeBestPractices) ∧
      dimScore BPResult.score (b.map analyzeBestPractices) ≤ 100 := by
  cases b with
  | error m => simp [dimScore, Except.map]
  | ok d =>
    have hb := bpScoreInt_le d
    simp only [Except.map, dimScore, analyzeBestPractices_score]
    omega

/-! ## Claim theorems -/

/-- C1: for every successful analyzer result (SEO, Performance,
Accessibility, Best Practices) and for the aggregator's overall record,
the reported score is an integer in [0, 100] and the reported grade
equals the fixed-threshold grading function of that score — even when
deductions drive the running total negative, since the code clamps the
reported score to 0 while grading the unclamped total, and both grade F
below 60. -/
theorem C1_score_grade_invariant :
    (∀ d : SEOInput, 0 ≤ (analyzeSEO d).score ∧ (analyzeSEO d).score ≤ 100 ∧
      (analyzeSEO d).grade = getGrade ((analyzeSEO d).score)) ∧
    (∀ d : PerfInput, 0 ≤ (analyzePerformance d).score ∧ (analyzePerformance d).score ≤ 100 ∧
      (analyzePerformance d).grade = getGrade ((analyzePerformance d).score)) ∧
    (∀ d : AccessInput, 0 ≤ (analyzeAccessibility d).score ∧
      (analyzeAccessibility d).score ≤ 100 ∧
      (analyzeAccessibility d).grade = getGrade ((analyzeAccessibility d).score)) ∧
    (∀ d : BPInput, 0 ≤ (analyzeBestPractices d).score ∧ (analyzeBestPractices d).score ≤ 100 ∧
      (analyzeBestPractices d).grade = getGrade ((analyzeBestPractices d).score)) ∧
    (∀ (seoD : Except String SEOInput) (perfD : Except String PerfInput)
        (accD : Except String AccessInput) (bpD : Except String BPInput),
      0 ≤ (runFullAuditOn seoD perfD accD bpD).overall.score ∧
      (runFullAuditOn seoD perfD accD bpD).overall.score ≤ 100 ∧
      (runFullAuditOn seoD perfD accD bpD).overall.grade
        = getGrade ((runFullAuditOn seoD perfD accD bpD).overall.score)) := by
  refine ⟨?_, ?_, ?_, ?_, ?_⟩
  · intro d
    have hb := seoScoreInt_bounds d
    rw [analyzeSEO_score, analyzeSEO_grade]
    exact ⟨by omega, by omega, (getGrade_max _).symm⟩
  · intro d
    have hb := perfScoreInt_le d
    rw [analyzePerformance_score, analyzePerformance_grade]
    exact ⟨by omega, by omega, (getGrade_max _).symm⟩
  · intro d
    have hb := accScoreInt_le d
    rw [analyzeAccessibility_score, analyzeAccessibility_grade]
    exact ⟨by omega, by omega, (getGrade_max _).symm⟩
  · intro d
    have hb := bpScoreInt_le d
    rw [analyzeBestPractices_score, analyzeBestPractices_grade]
    exact ⟨by omega, by omega, (getGrade_max _).symm⟩
  · intro seoD perfD accD bpD
    have h1 := dimScore_seo_bounds seoD
    have h2 := dimScore_perf_bounds perfD
    have h3 := dimScore_acc_bounds accD
    have h4 := dimScore_bp_bounds bpD
    unfold runFullAuditOn
    refine ⟨?_, ?_, runFullAudit_overall_grade _ _ _ _⟩
    · rw [runFullAudit_overall_score]
      exact jsRound_div4_nonneg (by omega)
    · rw [runFullAudit_overall_score]
      exact jsRound_div4_le (by omega)

/-- C2: the aggregator's overall score is the rounded arithmetic mean
of the four dimension scores, a failed dimension contributing 0, and
the overall grade is the grading function of that rounded score. -/
theorem C2_overall_rounded_mean (s : Except String SEOResult) (p : Except String PerfResult)
    (a : Except String AccessResult) (b : Except String BPResult) :
    (runFullAudit s p a b).overall.score =
      round (((dimScore SEOResult.score s + dimScore PerfResult.score p
        + dimScore AccessResult.score a + dimScore BPResult.score b : Int) : ℚ) / 4) ∧
    (runFullAudit s p a b).overall.grade =
      getGrade ((runFullAudit s p a b).overall.score) := by
  refine ⟨?_, runFullAudit_overall_grade s p a b⟩
  rw [runFullAudit_overall_score, jsRound_eq_round]

/-- C9: the SEO analyzer's score is always at least 35 (the deduction
sites total at most 65), so the clamp at 0 never fires and the reported
score equals the running total. -/
theorem C9_seo_score_at_least_35 (d : SEOInput) :
    35 ≤ (analyzeSEO d).score ∧ (analyzeSEO d).score = seoScoreInt d := by
  have hb := seoScoreInt_bounds d
  rw [analyzeSEO_score]
  exact ⟨by omega, by omega⟩

/-- C3: if exactly one analyzer throws while the other three succeed,
the aggregate is still produced: the failed dimension is the error
placeholder (modelled by `Except.error msg`, carrying score 0 and no
issues), the other three dimension results are exactly the analyzers'
stand-alone outputs, and `summary.totalIssues` sums the issue counts of
only the three present results.  One conjunct per failing position. -/
theorem C3_single_failure_isolation (m : String) (ds : SEOInput) (dp : PerfInput)
    (da : AccessInput) (db : BPInput) :
    (let rep := runFullAuditOn (.error m) (.ok dp) (.ok da) (.ok db)
     rep.seo = .error m ∧ dimScore SEOResult.score rep.seo = 0 ∧
       dimIssuesLen SEOResult.issues rep.seo = 0 ∧
       rep.performance = .ok (analyzePerformance dp) ∧
       rep.accessibility = .ok (analyzeAccessibility da) ∧
       rep.bestPractices = .ok (analyzeBestPractices db) ∧
       rep.summary.totalIssues = (analyzePerformance dp).issues.length
         + (analyzeAccessibility da).issues.length + (analyzeBestPractices db).issues.length) ∧
    (let rep := runFullAuditOn (.ok ds) (.error m) (.ok da) (.ok db)
     rep.performance = .error m ∧ dimScore PerfResult.score rep.performance = 0 ∧
       dimIssuesLen PerfResult.issues rep.performance = 0 ∧
       rep.seo = .ok (analyzeSEO ds) ∧
       rep.accessibility = .ok (analyzeAccessibility da) ∧
       rep.bestPractices = .ok (analyzeBestPractices db) ∧
       rep.summary.totalIssues = (analyzeSEO ds).issues.length
         + (analyzeAccessibility da).issues.length + (analyzeBestPractices db).issues.length) ∧
    (let rep := runFullAuditOn (.ok ds) (.ok dp) (.error m) (.ok db)
     rep.accessibility = .error m ∧ dimScore AccessResult.score rep.accessibility = 0 ∧
       dimIssuesLen AccessResult.issues rep.accessibility = 0 ∧
       rep.seo = .ok (analyzeSEO ds) ∧
       rep.performance = .ok (analyzePerformance dp) ∧
       rep.bestPractices = .ok (analyzeBestPractices db) ∧
       rep.summary.totalIssues = (analyzeSEO ds).issues.length
         + (analyzePerformance dp).issues.length + (analyzeBestPractices db).issues.length) ∧
    (let rep := runFullAuditOn (.ok ds) (.ok dp) (.ok da) (.error m)
     rep.bestPractices = .error m ∧ dimScore BPResult.score rep.bestPractices = 0 ∧
       dimIssuesLen BPResult.issues rep.bestPractices = 0 ∧
       rep.seo = .ok (analyzeSEO ds) ∧
       rep.performance = .ok (analyzePerformance dp) ∧
       rep.accessibility = .ok (analyzeAccessibility da) ∧
       rep.summary.totalIssues = (analyzeSEO ds).issues.length
         + (analyzePerformance dp).issues.length + (analyzeAccessibility da).issues.length) := by
  refine ⟨⟨rfl, rfl, rfl, rfl, rfl, rfl, ?_⟩, ⟨rfl, rfl, rfl, rfl, rfl, rfl, ?_⟩,
    ⟨rfl, rfl, rfl, rfl, rfl, rfl, ?_⟩, ⟨rfl, rfl, rfl, rfl, rfl, rfl, ?_⟩⟩ <;>
    simp [runFullAuditOn, runFullAudit, dimIssuesLen, Except.map]

/-- C4: if all four analyzers fail, the aggregator still returns a
report in which every dimension is the error placeholder, the overall
score is 0 with grade F, and `summary.totalIssues` is 0; no error
propagates out of the aggregation (the aggregator is a total
function). -/
theorem C4_all_failures_graceful (m1 m2 m3 m4 : String) :
    (runFullAuditOn (.error m1) (.error m2) (.error m3) (.error m4)).seo = .error m1 ∧
    (runFullAuditOn (.error m1) (.error m2) (.error m3) (.error m4)).performance = .error m2 ∧
    (runFullAuditOn (.error m1) (.error m2) (.error m3) (.error m4)).accessibility = .error m3 ∧
    (runFullAuditOn (.error m1) (.error m2) (.error m3) (.error m4)).bestPractices = .error m4 ∧
    (runFullAuditOn (.error m1) (.error m2) (.error m3) (.error m4)).overall.score = 0 ∧
    (runFullAuditOn (.error m1) (.error m2) (.error m3) (.error m4)).overall.grade = "F" ∧
    (runFullAuditOn (.error m1) (.error m2) (.error m3) (.error m4)).summary.totalIssues = 0 := by
  have hscore :
      (runFullAuditOn (.error m1) (.error m2) (.error m3) (.error m4)).overall.score = 0 := by
    unfold runFullAuditOn
    rw [runFullAudit_overall_score]
    simp only [Except.map, dimScore]
    rw [show ((0 + 0 + 0 + 0 : Int) : ℚ) = ((0 : Int) : ℚ) by norm_num]
    exact jsRound_zero_div4
  have hgrade :
      (runFullAuditOn (.error m1) (.error m2) (.error m3) (.error m4)).overall.grade = "F" := by
    rw [show (runFullAuditOn (.error m1) (.error m2) (.error m3) (.error m4)).overall.grade
        = getGrade ((runFullAuditOn (.error m1) (.error m2) (.error m3)
          (.error m4)).overall.score) from rfl, hscore]
    rfl
  exact ⟨rfl, rfl, rfl, rfl, hscore, hgrade, rfl⟩

lemma analyzeSEO_details_title (d : SEOInput) :
    (analyzeSEO d).details.title
      = if (seoTitleText d).isEmpty then "Not found" else seoTitleText d := rfl

lemma analyzeSEO_details_titleLength (d : SEOInput) :
    (analyzeSEO d).details.titleLength
      = if (seoTitleText d).isEmpty then 0 else (seoTitleText d).length := rfl

/-- C10: a whitespace-only title is treated as missing: the high-impact
missing-title error fires with its −15 deduction (never the length
warning), and the details report title "Not found" with length 0. -/
theorem C10_whitespace_title_is_missing (d : SEOInput) (h : seoTitleText d = "") :
    seoTitleIssues d = [seoTitleMissingIssue] ∧
    seoTitleDeduction d = 15 ∧
    seoTitleMissingIssue ∈ (analyzeSEO d).issues ∧
    (analyzeSEO d).details.title = "Not found" ∧
    (analyzeSEO d).details.titleLength = 0 := by
  have he : (seoTitleText d).isEmpty = true := by rw [h]; rfl
  refine ⟨?_, ?_, ?_, ?_, ?_⟩
  · simp [seoTitleIssues, he]
  · simp [seoTitleDeduction, he]
  · rw [analyzeSEO_issues]
    unfold seoIssues
    simp [seoTitleIssues, he]
  · rw [analyzeSEO_details_title, if_pos he]
  · rw [analyzeSEO_details_titleLength, if_pos he]

/-- C10 witness: the whitespace-title document at a concrete input. -/
theorem C10_witness :
    seoTitleText seoWhitespaceDoc = "" ∧
    (seoTitleIssues seoWhitespaceDoc = [seoTitleMissingIssue] ∧
     seoTitleDeduction seoWhitespaceDoc = 15 ∧
     seoTitleMissingIssue ∈ (analyzeSEO seoWhitespaceDoc).issues ∧
     (analyzeSEO seoWhitespaceDoc).details.title = "Not found" ∧
     (analyzeSEO seoWhitespaceDoc).details.titleLength = 0) :=
  ⟨by decide, C10_whitespace_title_is_missing seoWhitespaceDoc (by decide)⟩

/-- C6 counterexample: a document with no title, no meta description,
no h1, and exactly 3 images without alt — but also no canonical link
and no Open Graph tags — scores 44, not the claimed 52, because the
canonical (−5) and Open Graph (−3) deductions also fire. -/
theorem C6_counterexample :
    seoTitleText seoBareDoc = "" ∧
    optFalsy seoBareDoc.metaDescription = true ∧
    seoBareDoc.h1Count = 0 ∧
    seoBareDoc.imagesWithoutAlt = 3 ∧
    (analyzeSEO seoBareDoc).score = 44 ∧
    (analyzeSEO seoBareDoc).score ≠ 52 := by decide

/-- C6 amended: for every document with no title, no meta description,
no h1, exactly 3 images without alt, and additionally a canonical link
and both Open Graph tags present, the SEO analyzer returns score
52 = 100 − 15 − 15 − 12 − min(3*2, 15) and grade F. -/
theorem C6_seo_missing_essentials_score (d : SEOInput)
    (ht : seoTitleText d = "")
    (hm : optFalsy d.metaDescription = true)
    (hh : d.h1Count = 0)
    (hi : d.imagesWithoutAlt = 3)
    (hc : optFalsy d.canonical = false)
    (ho1 : optFalsy d.ogTitle = false)
    (ho2 : optFalsy d.ogDescription = false) :
    (analyzeSEO d).score = 52 ∧ (analyzeSEO d).grade = "F" := by
  have he : (seoTitleText d).isEmpty = true := by rw [ht]; rfl
  have hs : seoScoreInt d = 52 := by
    simp only [seoScoreInt, seoTitleDeduction, seoMetaDeduction, seoH1Deduction,
      seoAltDeduction, seoCanonicalDeduction, seoOgDeduction, he, hm, hh, hi, hc, ho1, ho2]
    norm_num
  constructor
  · rw [analyzeSEO_score, hs]
    omega
  · rw [analyzeSEO_grade, hs]
    rfl

/-- C6 witness: the amended scenario at a concrete input. -/
theorem C6_witness :
    seoTitleText seoBareWithCanonicalDoc = "" ∧
    optFalsy seoBareWithCanonicalDoc.metaDescription = true ∧
    seoBareWithCanonicalDoc.h1Count = 0 ∧
    seoBareWithCanonicalDoc.imagesWithoutAlt = 3 ∧
    optFalsy seoBareWithCanonicalDoc.canonical = false ∧
    ((analyzeSEO seoBareWithCanonicalDoc).score = 52 ∧
     (analyzeSEO seoBareWithCanonicalDoc).grade = "F") :=
  ⟨by decide, by decide, by decide, by decide, by decide,
   C6_seo_missing_essentials_score seoBareWithCanonicalDoc (by decide) (by decide)
     (by decide) (by decide) (by decide) (by decide) (by decide)⟩

/-- C5 counterexample: a document satisfying every condition of the
claim (html lang, exactly one h1, all images with alt, all inputs
labeled, a landmark, a skip link) but carrying no explicit `tabindex`
scores 97, not 100: the skip link itself is focusable, so the keyboard-
navigation info check deducts 3. The grade is still A. -/
theorem C5_counterexample :
    optFalsy accNoTabDoc.htmlLang = false ∧
    accH1Count accNoTabDoc = 1 ∧
    accNoTabDoc.imagesWithoutAlt = 0 ∧
    accNoTabDoc.inputsWithoutLabels = 0 ∧
    0 < accNoTabDoc.landmarks ∧
    0 < accNoTabDoc.skipLinks ∧
    (analyzeAccessibility accNoTabDoc).score = 97 ∧
    (analyzeAccessibility accNoTabDoc).score ≠ 100 ∧
    (analyzeAccessibility accNoTabDoc).grade = "A" := by decide

/-- C5 amended: for every document with an html lang attribute, exactly
one h1, every image carrying alt, every form input labeled, at least
one landmark, and at least one skip link — and additionally at most one
heading-hierarchy break, no inline color styles, and at least one
element with an explicit tabindex — the Accessibility analyzer returns
score 100 and grade A. -/
theorem C5_accessibility_clean_scenario (d : AccessInput)
    (hlang : optFalsy d.htmlLang = false)
    (hh1 : accH1Count d = 1)
    (halt : d.imagesWithoutAlt = 0)
    (hlab : d.inputsWithoutLabels = 0)
    (hland : 0 < d.landmarks)
    (hskip : 0 < d.skipLinks)
    (hbreaks : countHeadingBreaks 0 d.headingLevels ≤ 1)
    (hcolor : d.elementsWithInlineColors = 0)
    (htab : 0 < d.elementsWithTabindex) :
    (analyzeAccessibility d).score = 100 ∧ (analyzeAccessibility d).grade = "A" := by
  have hcnt : ¬ 1 < headingIssueCount d := by
    unfold headingIssueCount
    rw [if_neg (by omega)]
    omega
  have hland2 : d.landmarks ≠ 0 := by omega
  have hskip2 : d.skipLinks ≠ 0 := by omega
  have htab2 : d.elementsWithTabindex ≠ 0 := by omega
  have hs : accScoreInt d = 100 := by
    simp only [accScoreInt, accAltDeduction, accH1Deduction, accHierarchyDeduction,
      accLabelDeduction, accColorDeduction, accKeyboardDeduction, accLandmarkDeduction,
      accLangDeduction, accSkipDeduction, halt, hlab, hcolor, hlang, hh1, hcnt,
      hland2, hskip2, htab2]
    norm_num
  constructor
  · rw [analyzeAccessibility_score, hs]
    omega
  · rw [analyzeAccessibility_grade, hs]
    rfl

/-- C5 witness: the amended clean scenario at a concrete input. -/
theorem C5_witness :
    optFalsy accCleanDoc.htmlLang = false ∧
    accH1Count accCleanDoc = 1 ∧
    accCleanDoc.imagesWithoutAlt = 0 ∧
    0 < accCleanDoc.elementsWithTabindex ∧
    ((analyzeAccessibility accCleanDoc).score = 100 ∧
     (analyzeAccessibility accCleanDoc).grade = "A") :=
  ⟨by decide, by decide, by decide, by decide,
   C5_accessibility_clean_scenario accCleanDoc (by decide) (by decide) (by decide)
     (by decide) (by decide) (by decide) (by decide) (by decide) (by decide)⟩

/-- C7: an external link is counted unsafe exactly when its `rel`
attribute does not contain `noopener` or does not contain `noreferrer`
(so a link carrying only one of the two is still flagged); when the
count `n` of such links is positive, the check emits exactly one
warning — present in the analyzer's issue list — and the deduction is
`min(n*2, 10)`; when the count is zero it emits nothing and deducts
nothing. -/
theorem C7_unsafe_external_links (d : BPInput) :
    (∀ r : Option String, bpIsUnsafeRel r = true ↔
      (jsIncludes (r.getD "") "noopener" = false
        ∨ jsIncludes (r.getD "") "noreferrer" = false)) ∧
    bpUnsafeCount d = (d.externalLinkRels.filter bpIsUnsafeRel).length ∧
    (0 < bpUnsafeCount d →
      bpUnsafeIssues d = [bpUnsafeIssue (bpUnsafeCount d)] ∧
      bpUnsafeIssue (bpUnsafeCount d) ∈ (analyzeBestPractices d).issues ∧
      bpUnsafeDeduction d = ((min (bpUnsafeCount d * 2) 10 : Nat) : Int)) ∧
    (bpUnsafeCount d = 0 → bpUnsafeIssues d = [] ∧ bpUnsafeDeduction d = 0) := by
  refine ⟨?_, rfl, ?_, ?_⟩
  · intro r
    simp [bpIsUnsafeRel]
  · intro h
    refine ⟨?_, ?_, ?_⟩
    · unfold bpUnsafeIssues
      rw [if_pos h]
    · rw [analyzeBestPractices_issues]
      unfold bpIssues
      have hm : bpUnsafeIssue (bpUnsafeCount d) ∈ bpUnsafeIssues d := by
        unfold bpUnsafeIssues
        rw [if_pos h]
        exact List.mem_singleton_self _
      simp only [List.mem_append]
      tauto
    · unfold bpUnsafeDeduction
      rw [if_pos h]
  · intro h
    constructor
    · unfold bpUnsafeIssues
      rw [if_neg (by omega)]
    · unfold bpUnsafeDeduction
      rw [if_neg (by omega)]

/-- C7 witness: a link carrying only `noopener` is flagged, and on a
concrete input with two unsafe external links the single warning and
the `min(n*2, 10)` deduction are produced. -/
theorem C7_witness :
    bpIsUnsafeRel (some "noopener") = true ∧
    0 < bpUnsafeCount bpUnsafeDoc ∧
    bpUnsafeCount bpUnsafeDoc = 2 ∧
    bpUnsafeIssues bpUnsafeDoc = [bpUnsafeIssue (bpUnsafeCount bpUnsafeDoc)] ∧
    bpUnsafeIssue (bpUnsafeCount bpUnsafeDoc) ∈ (analyzeBestPractices bpUnsafeDoc).issues ∧
    bpUnsafeDeduction bpUnsafeDoc = ((min (bpUnsafeCount bpUnsafeDoc * 2) 10 : Nat) : Int) := by
  have h := C7_unsafe_external_links bpUnsafeDoc
  have hpos : 0 < bpUnsafeCount bpUnsafeDoc := by decide
  have h3 := h.2.2.1 hpos
  exact ⟨(h.1 (some "noopener")).mpr (Or.inr (by decide)), hpos, by decide,
    h3.1, h3.2.1, h3.2.2⟩

lemma not_mem_ite_singleton {c : Prop} [Decidable c] {v w : Issue} (hne : v ≠ w) :
    v ∉ (if c then [w] else []) := by
  split
  · simp [hne]
  · simp

lemma accHierarchyIssue_ne_error (m i : String) : accHierarchyIssue ≠ ⟨"error", m, i⟩ := by
  intro h
  have h1 : "warning" = "error" := congrArg Issue.type h
  exact absurd h1 (by decide)

lemma hier_notin_accAltIssues (d : AccessInput) : accHierarchyIssue ∉ accAltIssues d := by
  simp only [accAltIssues]
  exact not_mem_ite_singleton (accHierarchyIssue_ne_error _ _)

lemma hier_notin_accH1Issues (d : AccessInput) : accHierarchyIssue ∉ accH1Issues d := by
  simp only [accH1Issues]
  exact not_mem_ite_singleton (accHierarchyIssue_ne_error _ _)

lemma hier_notin_accLabelIssues (d : AccessInput) : accHierarchyIssue ∉ accLabelIssues d := by
  simp only [accLabelIssues]
  exact not_mem_ite_singleton (accHierarchyIssue_ne_error _ _)

lemma hier_notin_accColorIssues (d : AccessInput) : accHierarchyIssue ∉ accColorIssues d := by
  simp only [accColorIssues]
  exact not_mem_ite_singleton (by decide)

lemma hier_notin_accKeyboardIssues (d : AccessInput) :
    accHierarchyIssue ∉ accKeyboardIssues d := by
  simp only [accKeyboardIssues]
  exact not_mem_ite_singleton (by decide)

lemma hier_notin_accLandmarkIssues (d : AccessInput) :
    accHierarchyIssue ∉ accLandmarkIssues d := by
  simp only [accLandmarkIssues]
  exact not_mem_ite_singleton (by decide)

lemma hier_notin_accLangIssues (d : AccessInput) : accHierarchyIssue ∉ accLangIssues d := by
  simp only [accLangIssues]
  exact not_mem_ite_singleton (by decide)

lemma hier_notin_accSkipIssues (d : AccessInput) : accHierarchyIssue ∉ accSkipIssues d := by
  simp only [accSkipIssues]
  exact not_mem_ite_singleton (by decide)

/-- The hierarchy warning occurs in the full accessibility issue list
exactly once when the internal counter exceeds 1, and never
otherwise. -/
lemma count_accIssues_hier (d : AccessInput) :
    (accIssues d).count accHierarchyIssue = if 1 < headingIssueCount d then 1 else 0 := by
  have h1 := List.count_eq_zero.mpr (hier_notin_accAltIssues d)
  have h2 := List.count_eq_zero.mpr (hier_notin_accH1Issues d)
  have h4 := List.count_eq_zero.mpr (hier_notin_accLabelIssues d)
  have h5 := List.count_eq_zero.mpr (hier_notin_accColorIssues d)
  have h6 := List.count_eq_zero.mpr (hier_notin_accKeyboardIssues d)
  have h7 := List.count_eq_zero.mpr (hier_notin_accLandmarkIssues d)
  have h8 := List.count_eq_zero.mpr (hier_notin_accLangIssues d)
  have h9 := List.count_eq_zero.mpr (hier_notin_accSkipIssues d)
  unfold accIssues
  simp only [List.count_append, h1, h2, h4, h5, h6, h7, h8, h9]
  unfold accHierarchyIssues
  split
  · simp
  · simp

/-- C8: the accessibility analyzer's internal heading-issue counter is
one for a missing h1 plus one per document-order hierarchy break (a
heading level exceeding the previous by more than 1, after some heading
was seen); the single combined hierarchy warning appears in the issue
list exactly once when and only when the counter exceeds 1, with a −10
deduction then and a 0 deduction otherwise; in particular a document
with an h1 present and exactly one break gets no hierarchy issue and no
deduction. -/
theorem C8_heading_hierarchy_counter (d : AccessInput) :
    headingIssueCount d
        = (if accH1Count d = 0 then 1 else 0) + countHeadingBreaks 0 d.headingLevels ∧
    (analyzeAccessibility d).issues.count accHierarchyIssue
        = (if 1 < headingIssueCount d then 1 else 0) ∧
    (1 < headingIssueCount d → accHierarchyDeduction d = 10) ∧
    (headingIssueCount d ≤ 1 → accHierarchyDeduction d = 0) ∧
    (accH1Count d ≠ 0 → countHeadingBreaks 0 d.headingLevels = 1 →
      accHierarchyIssue ∉ (analyzeAccessibility d).issues ∧ accHierarchyDeduction d = 0) := by
  refine ⟨rfl, ?_, ?_, ?_, ?_⟩
  · rw [analyzeAccessibility_issues]
    exact count_accIssues_hier d
  · intro h
    unfold accHierarchyDeduction
    rw [if_pos h]
  · intro h
    unfold accHierarchyDeduction
    rw [if_neg (by omega)]
  · intro hh hb
    have hc : headingIssueCount d = 1 := by
      unfold headingIssueCount
      rw [if_neg hh, hb]
    constructor
    · rw [analyzeAccessibility_issues]
      apply List.count_eq_zero.mp
      rw [count_accIssues_hier d, hc]
      norm_num
    · unfold accHierarchyDeduction
      rw [if_neg (by omega)]

/-- C8 witness: a document with two hierarchy breaks gets the −10
deduction; a document with an h1 and exactly one break gets neither the
warning nor the deduction. -/
theorem C8_witness :
    (1 < headingIssueCount accBrokenDoc ∧ accHierarchyDeduction accBrokenDoc = 10) ∧
    (accH1Count accSingleBreakDoc ≠ 0 ∧
     countHeadingBreaks 0 accSingleBreakDoc.headingLevels = 1 ∧
     accHierarchyIssue ∉ (analyzeAccessibility accSingleBreakDoc).issues ∧
     accHierarchyDeduction accSingleBreakDoc = 0) :=
  ⟨⟨by decide, (C8_heading_hierarchy_counter accBrokenDoc).2.2.1 (by decide)⟩,
   ⟨by decide, by decide,
    ((C8_heading_hierarchy_counter accSingleBreakDoc).2.2.2.2 (by decide) (by decide)).1,
    ((C8_heading_hierarchy_counter accSingleBreakDoc).2.2.2.2 (by decide) (by decide)).2⟩⟩
